import Mathlib

/-!
Verification of the Roboto watch face (`src/roboto.c`).

The embedding below translates the C program into Lean:

* geometry (`GPoint`, `GSize`, `GRect`) uses `Int`, matching the C `int`
  arithmetic of the draw hook; C integer division (truncation toward zero)
  is `Int.tdiv`;
* the `TimeLayer` struct and its operations follow the C definitions
  field for field; C string pointers become `Option (List Char)`
  (`none` = null pointer), buffers become `List Char` of the C array
  length (the terminating and padding null bytes are explicit elements);
* the draw hook is a function from the layer state to the list of
  graphics calls it issues, with the external text measurer abstracted
  as a function argument, as the spec's TextMeasurer collaborator;
* the platform formatter `string_format_time` and the clock fields are
  modelled from the spec's clock-collaborator contract (patterns
  `%a %b %d %H %I %M`, snprintf-style bounded write).
-/

namespace Roboto

/-- Colours of the Pebble palette used by the program. -/
inductive GColor
  | Clear
  | Black
  | White
deriving DecidableEq, Repr

/-- Overflow policy (`GTextOverflowMode`). -/
inductive GTextOverflowMode
  | WordWrap
  | Fill
  | TrailingEllipsis
deriving DecidableEq, Repr

/-- Text alignment (`GTextAlignment`). -/
inductive GTextAlignment
  | Left
  | Center
  | Right
deriving DecidableEq, Repr

/-- Font handles: system fonts are looked up by key, custom fonts are
loaded from a resource handle. -/
inductive GFont
  | system (key : String)
  | custom (resource : Nat)
deriving DecidableEq, Repr

structure GPoint where
  x : Int
  y : Int
deriving DecidableEq, Repr

structure GSize where
  w : Int
  h : Int
deriving DecidableEq, Repr

structure GRect where
  origin : GPoint
  size : GSize
deriving DecidableEq, Repr

/-- The part of the host `Layer` the program reads: its frame and its
local bounds. -/
structure Layer where
  frame : GRect
  bounds : GRect
deriving DecidableEq, Repr

/-- `layer_init` gives the layer the requested frame and a bounds
rectangle of the same size at local origin `(0, 0)`. -/
def layer_init (frame : GRect) : Layer :=
  { frame := frame, bounds := ⟨⟨0, 0⟩, frame.size⟩ }

/-- The `TimeLayer` struct of `roboto.c` (the embedded `Layer` plus the
text, font, cache, colour and overflow fields). -/
structure TimeLayer where
  layer : Layer
  hour_text : Option (List Char)
  minute_text : Option (List Char)
  hour_font : GFont
  minute_font : GFont
  layout_cache : Nat
  text_color : GColor
  background_color : GColor
  overflow_mode : GTextOverflowMode
deriving DecidableEq, Repr

/-- One call issued to the graphics collaborator during a draw pass. -/
inductive GfxCall
  | setFillColor (c : GColor)
  | fillRect (r : GRect)
  | setTextColor (c : GColor)
  | measureText (text : List Char) (font : GFont) (box : GRect)
      (om : GTextOverflowMode) (al : GTextAlignment)
  | drawText (text : List Char) (font : GFont) (box : GRect)
      (om : GTextOverflowMode) (al : GTextAlignment)
deriving DecidableEq, Repr

/-- The external TextMeasurer: text, font, box, overflow mode, alignment
and layout cache to a measured size
(`graphics_text_layout_get_max_used_size`). -/
def GMeasure : Type :=
  List Char → GFont → GRect → GTextOverflowMode → GTextAlignment → Nat → GSize

/-- `time_layer_update_proc` (roboto.c lines 60-111) as the list of
graphics calls it issues: optional background fill, text colour, and —
only when both texts are non-null — two measurements and two draws.
All box arithmetic uses C integer division `Int.tdiv`. -/
def time_layer_update_proc (measure : GMeasure) (tl : TimeLayer) : List GfxCall :=
  (if tl.background_color ≠ GColor.Clear then
    [GfxCall.setFillColor tl.background_color, GfxCall.fillRect tl.layer.bounds]
  else []) ++
  [GfxCall.setTextColor tl.text_color] ++
  (match tl.hour_text, tl.minute_text with
  | some ht, some mt =>
    let hour_sz := measure ht tl.hour_font tl.layer.bounds tl.overflow_mode
      GTextAlignment.Left tl.layout_cache
    let minute_sz := measure mt tl.minute_font tl.layer.bounds tl.overflow_mode
      GTextAlignment.Left tl.layout_cache
    let width := minute_sz.w + hour_sz.w
    let half := Int.tdiv tl.layer.bounds.size.w 2
    let hour_bounds : GRect :=
      { tl.layer.bounds with
          size := { tl.layer.bounds.size with
                      w := half - Int.tdiv width 2 + hour_sz.w } }
    let minute_bounds : GRect :=
      { tl.layer.bounds with
          origin := { tl.layer.bounds.origin with x := hour_bounds.size.w + 1 },
          size := { tl.layer.bounds.size with w := minute_sz.w } }
    [GfxCall.measureText ht tl.hour_font tl.layer.bounds tl.overflow_mode
        GTextAlignment.Left,
     GfxCall.measureText mt tl.minute_font tl.layer.bounds tl.overflow_mode
        GTextAlignment.Left,
     GfxCall.drawText ht tl.hour_font hour_bounds tl.overflow_mode
        GTextAlignment.Right,
     GfxCall.drawText mt tl.minute_font minute_bounds tl.overflow_mode
        GTextAlignment.Left]
  | _, _ => [])

/-- `time_layer_set_text`: stores the two pointers and calls
`layer_mark_dirty` unconditionally. The boolean records whether
`layer_mark_dirty` was called. -/
def time_layer_set_text (tl : TimeLayer)
    (hour_text minute_text : Option (List Char)) : TimeLayer × Bool :=
  ({ tl with hour_text := hour_text, minute_text := minute_text }, true)

/-- `time_layer_set_fonts`: stores both fonts, marks dirty only when the
two text pointers are non-null. -/
def time_layer_set_fonts (tl : TimeLayer)
    (hour_font minute_font : GFont) : TimeLayer × Bool :=
  ({ tl with hour_font := hour_font, minute_font := minute_font },
   tl.hour_text.isSome && tl.minute_text.isSome)

/-- `time_layer_set_text_color`: stores the colour, marks dirty only
when the two text pointers are non-null. -/
def time_layer_set_text_color (tl : TimeLayer) (color : GColor) :
    TimeLayer × Bool :=
  ({ tl with text_color := color },
   tl.hour_text.isSome && tl.minute_text.isSome)

/-- `time_layer_set_background_color`: stores the colour, marks dirty
only when the two text pointers are non-null. -/
def time_layer_set_background_color (tl : TimeLayer) (color : GColor) :
    TimeLayer × Bool :=
  ({ tl with background_color := color },
   tl.hour_text.isSome && tl.minute_text.isSome)

def FONT_KEY_GOTHIC_14_BOLD : String := "RESOURCE_ID_GOTHIC_14_BOLD"

def fonts_get_system_font (key : String) : GFont := GFont.system key

/-- `time_layer_init`: initialises the embedded layer from the frame and
sets the colour, overflow and font defaults; the two text pointers are
not assigned (they keep whatever value the struct held, zero for the
program's static `time_layer`). -/
def time_layer_init (tl : TimeLayer) (frame : GRect) : TimeLayer :=
  let tl1 := { tl with
    layer := layer_init frame,
    text_color := GColor.White,
    background_color := GColor.Clear,
    overflow_mode := GTextOverflowMode.WordWrap,
    hour_font := fonts_get_system_font FONT_KEY_GOTHIC_14_BOLD }
  { tl1 with minute_font := tl1.hour_font }

/-! ### Clock collaborator and formatter

Modelled from the spec: the platform's `string_format_time` (a strftime
wrapper supporting `%a`, `%b`, `%d`, `%H`, `%I`, `%M`) and the broken-out
time record are SDK code, not part of this repository; they are embedded
here following the spec's clock-collaborator contract. -/

/-- The fields of the broken-out time `PblTm` that the program reads. -/
structure PblTm where
  hour : Nat
  min : Nat
  mday : Nat
  mon : Nat
  wday : Nat
deriving DecidableEq, Repr

/-- The null byte. -/
def nullChar : Char := Char.ofNat 0

/-- Zero-padded two-digit rendering of a field value. -/
def two_digits (n : Nat) : List Char :=
  [Char.ofNat (48 + n / 10 % 10), Char.ofNat (48 + n % 10)]

/-- The 12-hour display value for a 0-23 clock hour, as `%I` renders it
(0 becomes 12, 13 becomes 1, ...). -/
def hour12 (h : Nat) : Nat := (h + 11) % 12 + 1

/-- Abbreviated weekday names for `%a` (out-of-range values render as a
three-character placeholder). -/
def wday_abbrev (w : Nat) : List Char :=
  [['S', 'u', 'n'], ['M', 'o', 'n'], ['T', 'u', 'e'], ['W', 'e', 'd'],
   ['T', 'h', 'u'], ['F', 'r', 'i'], ['S', 'a', 't']].getD w ['?', '?', '?']

/-- Abbreviated month names for `%b` (out-of-range values render as a
three-character placeholder). -/
def mon_abbrev (m : Nat) : List Char :=
  [['J', 'a', 'n'], ['F', 'e', 'b'], ['M', 'a', 'r'], ['A', 'p', 'r'],
   ['M', 'a', 'y'], ['J', 'u', 'n'], ['J', 'u', 'l'], ['A', 'u', 'g'],
   ['S', 'e', 'p'], ['O', 'c', 't'], ['N', 'o', 'v'],
   ['D', 'e', 'c']].getD m ['?', '?', '?']

/-- Expansion of a single conversion specifier. -/
def format_spec (c : Char) (t : PblTm) : List Char :=
  if c = 'a' then wday_abbrev t.wday
  else if c = 'b' then mon_abbrev t.mon
  else if c = 'd' then two_digits t.mday
  else if c = 'H' then two_digits t.hour
  else if c = 'I' then two_digits (hour12 t.hour)
  else if c = 'M' then two_digits t.min
  else [c]

/-- Unbounded expansion of a format pattern over a broken-out time. -/
def format_expand : List Char → PblTm → List Char
  | [], _ => []
  | '%' :: c :: rest, t => format_spec c t ++ format_expand rest t
  | c :: rest, t => c :: format_expand rest t

/-- `string_format_time buf size pat t`: snprintf-style bounded write of
the expansion of `pat` into the buffer; at most `size - 1` characters are
written, followed by a null, and the bytes of the buffer beyond the
terminator are untouched. -/
def string_format_time (buf : List Char) (size : Nat) (pat : List Char)
    (t : PblTm) : List Char :=
  let s := format_expand pat t
  let n := min s.length (size - 1)
  s.take n ++ [nullChar] ++ buf.drop (n + 1)

/-- `memmove(&buf[0], &buf[1], sizeof(buf) - 1)`: every byte moves one
slot left; the last byte is read but not written. -/
def memmove_left1 (buf : List Char) : List Char :=
  buf.drop 1 ++ buf.drop (buf.length - 1)

/-! ### The Face: tick handler and lifecycle -/

/-- Bit of the `DAY_UNIT` flag in the `TimeUnits` mask. -/
def DAY_UNIT : Nat := 8

/-- The date pattern `"%a, %b %d"`. -/
def datePat : List Char := ['%', 'a', ',', ' ', '%', 'b', ' ', '%', 'd']

/-- The 24-hour pattern `"%H"`. -/
def hourPat24 : List Char := ['%', 'H']

/-- The 12-hour pattern `"%I"`. -/
def hourPat12 : List Char := ['%', 'I']

/-- The minute pattern `":%M"`. -/
def minutePat : List Char := [':', '%', 'M']

/-- The three static buffers of `handle_minute_tick`, with their
declared C sizes 12, 3 and 4. -/
structure FaceBuffers where
  date_text : List Char
  hour_text : List Char
  minute_text : List Char
deriving DecidableEq, Repr

/-- Initial values of the static buffers
(`"XXX, XXX 00"`, `"00"`, `":00"` with their terminators). -/
def initial_face_buffers : FaceBuffers :=
  { date_text := ['X', 'X', 'X', ',', ' ', 'X', 'X', 'X', ' ', '0', '0',
      nullChar],
    hour_text := ['0', '0', nullChar],
    minute_text := [':', '0', '0', nullChar] }

/-- Result of one run of the tick handler: the new buffer contents,
whether the date was pushed to the date layer
(`text_layer_set_text(&date_layer, ...)`), and the argument pair of the
unconditional `time_layer_set_text` call. -/
structure TickResult where
  buffers : FaceBuffers
  date_pushed : Bool
  time_set : Option (List Char × List Char)
deriving DecidableEq, Repr

/-- `handle_minute_tick` (roboto.c lines 184-221): reformat the date and
push it when the `DAY_UNIT` bit of `units_changed` is set; format the
hour with `%H` in 24-hour style, otherwise with `%I` followed by the
`memmove` left shift when the first character is `'0'`; format the
minute with `":%M"`; hand both time buffers to `time_layer_set_text`. -/
def handle_minute_tick (units_changed : Nat) (t : PblTm) (is24h : Bool)
    (sb : FaceBuffers) : TickResult :=
  let day : Bool := (units_changed &&& DAY_UNIT) != 0
  let date_text :=
    if day then string_format_time sb.date_text 12 datePat t
    else sb.date_text
  let hour_text :=
    if is24h then string_format_time sb.hour_text 3 hourPat24 t
    else
      let ht := string_format_time sb.hour_text 3 hourPat12 t
      if ht.head? = some '0' then memmove_left1 ht else ht
  let minute_text := string_format_time sb.minute_text 4 minutePat t
  { buffers := ⟨date_text, hour_text, minute_text⟩,
    date_pushed := day,
    time_set := some (hour_text, minute_text) }

/-- Resource and lifecycle actions performed by `handle_init` and
`handle_deinit`. -/
inductive ResAction
  | window_init_act
  | window_stack_push
  | resource_init_act
  | load_font (f : GFont)
  | time_layer_init_act
  | add_time_layer
  | text_layer_init_act
  | add_date_layer
  | unload_font (f : GFont)
  | unsubscribe_tick
  | destroy_time_layer
  | destroy_date_layer
  | window_destroy
deriving DecidableEq, Repr

def RESOURCE_ID_FONT_ROBOTO_CONDENSED_21 : Nat := 1
def RESOURCE_ID_FONT_ROBOTO_BOLD_SUBSET_49 : Nat := 2
def RESOURCE_ID_FONT_ROBOTO_THIN_SUBSET_49 : Nat := 3

def fonts_load_custom_font (handle : Nat) : GFont := GFont.custom handle

/-- The date font loaded by `handle_init`. -/
def font_date : GFont := fonts_load_custom_font RESOURCE_ID_FONT_ROBOTO_CONDENSED_21

/-- The hour font loaded by `handle_init`. -/
def font_hour : GFont := fonts_load_custom_font RESOURCE_ID_FONT_ROBOTO_BOLD_SUBSET_49

/-- The minute font loaded by `handle_init`. -/
def font_minute : GFont := fonts_load_custom_font RESOURCE_ID_FONT_ROBOTO_THIN_SUBSET_49

/-- Acquisition trace of `handle_init` (roboto.c lines 226-268), in
program order: window setup, resource init, the three font loads
(date, hour, minute), the two layers and their attachment. -/
def handle_init_trace : List ResAction :=
  [ResAction.window_init_act,
   ResAction.window_stack_push,
   ResAction.resource_init_act,
   ResAction.load_font font_date,
   ResAction.load_font font_hour,
   ResAction.load_font font_minute,
   ResAction.time_layer_init_act,
   ResAction.add_time_layer,
   ResAction.text_layer_init_act,
   ResAction.add_date_layer]

/-- Release trace of `handle_deinit` (roboto.c lines 273-278): the three
`fonts_unload_custom_font` calls, in the order date, hour, minute, and
nothing else. -/
def handle_deinit_trace : List ResAction :=
  [ResAction.unload_font font_date,
   ResAction.unload_font font_hour,
   ResAction.unload_font font_minute]

/-- The fonts loaded along a trace, in order. -/
def font_loads (l : List ResAction) : List GFont :=
  l.filterMap fun a =>
    match a with
    | ResAction.load_font f => some f
    | _ => none

/-- The fonts unloaded along a trace, in order. -/
def font_unloads (l : List ResAction) : List GFont :=
  l.filterMap fun a =>
    match a with
    | ResAction.unload_font f => some f
    | _ => none

/-- The deinit trace the spec's words describe (claim C8): reverse of
acquisition — unsubscribe, destroy both layers, unload the fonts in
reverse load order, destroy the window. -/
def claimed_deinit_trace : List ResAction :=
  [ResAction.unsubscribe_tick,
   ResAction.destroy_time_layer,
   ResAction.destroy_date_layer,
   ResAction.unload_font font_minute,
   ResAction.unload_font font_hour,
   ResAction.unload_font font_date,
   ResAction.window_destroy]

/-! ### Concrete inputs used by witnesses and counterexamples -/

/-- `TIME_FRAME` of roboto.c: `GRect(0, 40, 144, 168-40)`. -/
def TIME_FRAME : GRect := ⟨⟨0, 40⟩, ⟨144, 128⟩⟩

/-- A measurer that returns width 0 for everything. -/
def zero_measure : GMeasure := fun _ _ _ _ _ _ => ⟨0, 0⟩

/-- Scenario S1 measurer: width 30 for the hour text `"9"`, width 48
for everything else (the minute text `":45"`). -/
def s1_measure : GMeasure :=
  fun text _ _ _ _ _ => if text = ['9'] then ⟨30, 50⟩ else ⟨48, 50⟩

/-- Overflow measurer: width 0 for the hour text `"9"`, width 146 for
everything else, so the measured total 146 exceeds the 144-wide bounds. -/
def cex_measure : GMeasure :=
  fun text _ _ _ _ _ => if text = ['9'] then ⟨0, 50⟩ else ⟨146, 50⟩

/-- Scenario S1 layer: texts `"9"` and `":45"`, the two custom time
fonts, clear background, white text, 144×128 bounds at origin. -/
def s1_layer : TimeLayer :=
  { layer := { frame := TIME_FRAME, bounds := ⟨⟨0, 0⟩, ⟨144, 128⟩⟩ },
    hour_text := some ['9'],
    minute_text := some [':', '4', '5'],
    hour_font := GFont.custom 2,
    minute_font := GFont.custom 3,
    layout_cache := 0,
    text_color := GColor.White,
    background_color := GColor.Clear,
    overflow_mode := GTextOverflowMode.WordWrap }

/-- The S1 layer drawn with a bounds rectangle whose origin is
`(10, 40)` instead of `(0, 0)`. -/
def c3_layer : TimeLayer :=
  { s1_layer with
      layer := { frame := TIME_FRAME, bounds := ⟨⟨10, 40⟩, ⟨144, 128⟩⟩ } }

/-- A layer whose hour text is null. -/
def no_text_layer : TimeLayer :=
  { s1_layer with hour_text := none }

/-- A zero-initialised `TimeLayer`, as the static `time_layer` global is
before `handle_init` runs: both text pointers null. -/
def zeroed_time_layer : TimeLayer :=
  { layer := { frame := ⟨⟨0, 0⟩, ⟨0, 0⟩⟩, bounds := ⟨⟨0, 0⟩, ⟨0, 0⟩⟩ },
    hour_text := none,
    minute_text := none,
    hour_font := GFont.custom 0,
    minute_font := GFont.custom 0,
    layout_cache := 0,
    text_color := GColor.Black,
    background_color := GColor.Black,
    overflow_mode := GTextOverflowMode.WordWrap }

/-- The broken-out time of scenario S3: 2013-04-05 (a Friday) 09:07. -/
def s3_time : PblTm := { hour := 9, min := 7, mday := 5, mon := 3, wday := 5 }

/-! ### Helper lemmas -/

/-- C integer division agrees with mathematical (Euclidean) integer
division on non-negative operands. -/
theorem tdiv_eq_ediv_of_nonneg (a b : Int) (ha : 0 ≤ a) (hb : 0 ≤ b) :
    Int.tdiv a b = a / b := by
  obtain ⟨n, rfl⟩ := Int.eq_ofNat_of_zero_le ha
  obtain ⟨m, rfl⟩ := Int.eq_ofNat_of_zero_le hb
  rfl

/-! ### Claims -/

/-- Claim C6: `set_fonts`, `set_text_color` and `set_background_color`
mark the layer dirty exactly when both texts are present at the time of
the call; `set_text` marks dirty unconditionally; every setter stores
its new value regardless. -/
theorem dirty_marking_discipline (tl : TimeLayer) (hf mf : GFont)
    (c₁ c₂ : GColor) (h m : Option (List Char)) :
    (time_layer_set_text tl h m).1.hour_text = h ∧
    (time_layer_set_text tl h m).1.minute_text = m ∧
    (time_layer_set_text tl h m).2 = true ∧
    (time_layer_set_fonts tl hf mf).1.hour_font = hf ∧
    (time_layer_set_fonts tl hf mf).1.minute_font = mf ∧
    ((time_layer_set_fonts tl hf mf).2 = true ↔
      tl.hour_text.isSome = true ∧ tl.minute_text.isSome = true) ∧
    (time_layer_set_text_color tl c₁).1.text_color = c₁ ∧
    ((time_layer_set_text_color tl c₁).2 = true ↔
      tl.hour_text.isSome = true ∧ tl.minute_text.isSome = true) ∧
    (time_layer_set_background_color tl c₂).1.background_color = c₂ ∧
    ((time_layer_set_background_color tl c₂).2 = true ↔
      tl.hour_text.isSome = true ∧ tl.minute_text.isSome = true) := by
  simp [time_layer_set_text, time_layer_set_fonts, time_layer_set_text_color,
    time_layer_set_background_color, Bool.and_eq_true]

/-- Claim C7: when either text pointer is null, the draw hook issues
only the optional background fill and the text-colour call — no
measurement, no text draw. -/
theorem no_text_update_only_background (measure : GMeasure) (tl : TimeLayer)
    (h : tl.hour_text = none ∨ tl.minute_text = none) :
    time_layer_update_proc measure tl =
      (if tl.background_color ≠ GColor.Clear then
        [GfxCall.setFillColor tl.background_color,
         GfxCall.fillRect tl.layer.bounds]
      else []) ++ [GfxCall.setTextColor tl.text_color] := by
  rcases h with h | h
  · cases hm : tl.minute_text <;> simp [time_layer_update_proc, h, hm]
  · cases hh : tl.hour_text <;> simp [time_layer_update_proc, h, hh]

/-- Witness for claim C7: on the S1 layer with its hour text nulled, a
draw pass is exactly the single text-colour call. -/
theorem no_text_update_only_background_witness :
    time_layer_update_proc zero_measure no_text_layer =
      [GfxCall.setTextColor GColor.White] := by
  have h := no_text_update_only_background zero_measure no_text_layer
    (Or.inl rfl)
  simpa using h

/-- Claim C5: the tick handler reformats and pushes the date exactly
when the `DAY_UNIT` bit is set, leaves the date buffer untouched
otherwise, reformats the hour and minute independently of the mask, and
hands both time buffers to `time_layer_set_text` on every tick. -/
theorem day_change_gating (u : Nat) (t : PblTm) (is24h : Bool)
    (sb : FaceBuffers) :
    ((handle_minute_tick u t is24h sb).date_pushed = true ↔
      u &&& DAY_UNIT ≠ 0) ∧
    (handle_minute_tick u t is24h sb).buffers.date_text =
      (if (u &&& DAY_UNIT) != 0 then
        string_format_time sb.date_text 12 datePat t
      else sb.date_text) ∧
    (handle_minute_tick u t is24h sb).time_set =
      some ((handle_minute_tick u t is24h sb).buffers.hour_text,
            (handle_minute_tick u t is24h sb).buffers.minute_text) ∧
    (handle_minute_tick u t is24h sb).buffers.hour_text =
      (handle_minute_tick 0 t is24h sb).buffers.hour_text ∧
    (handle_minute_tick u t is24h sb).buffers.minute_text =
      string_format_time sb.minute_text 4 minutePat t := by
  simp [handle_minute_tick, bne_iff_ne]

/-- Claim C8, counterexample: `handle_deinit` is not the reverse of the
acquisition order — it performs no unsubscription, no layer
destruction and no window destruction, and it unloads the fonts in an
order that is not the reverse of the load order. -/
theorem deinit_not_reverse_cex :
    handle_deinit_trace ≠ claimed_deinit_trace ∧
    ResAction.unsubscribe_tick ∉ handle_deinit_trace ∧
    ResAction.destroy_time_layer ∉ handle_deinit_trace ∧
    ResAction.destroy_date_layer ∉ handle_deinit_trace ∧
    ResAction.window_destroy ∉ handle_deinit_trace ∧
    font_unloads handle_deinit_trace ≠ (font_loads handle_init_trace).reverse := by
  decide

/-- Claim C8, amended: `handle_deinit` only unloads the three custom
fonts, in the same order they were loaded (date, hour, minute). -/
theorem deinit_unloads_fonts_in_load_order :
    handle_deinit_trace =
      [ResAction.unload_font font_date,
       ResAction.unload_font font_hour,
       ResAction.unload_font font_minute] ∧
    font_unloads handle_deinit_trace = font_loads handle_init_trace := by
  decide

/-- Claim C10: after `time_layer_init` on a zero-initialised struct the
text colour is white, the background the clear sentinel, the overflow
mode word-wrap, both text pointers still null, both fonts the
GOTHIC_14_BOLD system font, and a draw pass issues only the text-colour
call. -/
theorem init_defaults (tl0 : TimeLayer) (frame : GRect) (measure : GMeasure)
    (hh : tl0.hour_text = none) (hm : tl0.minute_text = none) :
    (time_layer_init tl0 frame).text_color = GColor.White ∧
    (time_layer_init tl0 frame).background_color = GColor.Clear ∧
    (time_layer_init tl0 frame).overflow_mode = GTextOverflowMode.WordWrap ∧
    (time_layer_init tl0 frame).hour_text = none ∧
    (time_layer_init tl0 frame).minute_text = none ∧
    (time_layer_init tl0 frame).hour_font =
      fonts_get_system_font FONT_KEY_GOTHIC_14_BOLD ∧
    (time_layer_init tl0 frame).minute_font =
      (time_layer_init tl0 frame).hour_font ∧
    time_layer_update_proc measure (time_layer_init tl0 frame) =
      [GfxCall.setTextColor GColor.White] := by
  simp [time_layer_init, time_layer_update_proc, layer_init, hh, hm]

/-- Witness for claim C10 at the zeroed global layer and the program's
time frame. -/
theorem init_defaults_witness :
    (time_layer_init zeroed_time_layer TIME_FRAME).text_color = GColor.White ∧
    (time_layer_init zeroed_time_layer TIME_FRAME).background_color =
      GColor.Clear ∧
    (time_layer_init zeroed_time_layer TIME_FRAME).overflow_mode =
      GTextOverflowMode.WordWrap ∧
    (time_layer_init zeroed_time_layer TIME_FRAME).hour_text = none ∧
    (time_layer_init zeroed_time_layer TIME_FRAME).minute_text = none ∧
    (time_layer_init zeroed_time_layer TIME_FRAME).hour_font =
      fonts_get_system_font FONT_KEY_GOTHIC_14_BOLD ∧
    (time_layer_init zeroed_time_layer TIME_FRAME).minute_font =
      (time_layer_init zeroed_time_layer TIME_FRAME).hour_font ∧
    time_layer_update_proc zero_measure
        (time_layer_init zeroed_time_layer TIME_FRAME) =
      [GfxCall.setTextColor GColor.White] :=
  init_defaults zeroed_time_layer TIME_FRAME zero_measure rfl rfl

/-- Claim C1: with both texts measured at non-negative widths `hw`, `mw`
summing to at most the bounds width `W` (bounds at origin), the hour is
drawn right-aligned in a box of width `W/2 − (hw+mw)/2 + hw`, the minute
left-aligned in a box starting one pixel past it with width `mw`, and
the doubled midpoint of the combined run is within two of `W` (the
midpoint is within one pixel of `W/2`). -/
theorem centring_law (measure : GMeasure) (tl : TimeLayer)
    (ht mt : List Char) (W bh hw hh mw mh : Int)
    (hht : tl.hour_text = some ht) (hmt : tl.minute_text = some mt)
    (hb : tl.layer.bounds = ⟨⟨0, 0⟩, ⟨W, bh⟩⟩)
    (hmeasH : measure ht tl.hour_font tl.layer.bounds tl.overflow_mode
      GTextAlignment.Left tl.layout_cache = ⟨hw, hh⟩)
    (hmeasM : measure mt tl.minute_font tl.layer.bounds tl.overflow_mode
      GTextAlignment.Left tl.layout_cache = ⟨mw, mh⟩)
    (hw0 : 0 ≤ hw) (mw0 : 0 ≤ mw) (hsum : hw + mw ≤ W) :
    ∃ hbox mbox : GRect,
      GfxCall.drawText ht tl.hour_font hbox tl.overflow_mode
          GTextAlignment.Right ∈ time_layer_update_proc measure tl ∧
      GfxCall.drawText mt tl.minute_font mbox tl.overflow_mode
          GTextAlignment.Left ∈ time_layer_update_proc measure tl ∧
      hbox.size.w = W / 2 - (hw + mw) / 2 + hw ∧
      mbox.origin.x = hbox.size.w + 1 ∧
      mbox.size.w = mw ∧
      hbox.origin.x = 0 ∧
      |(hbox.origin.x + hbox.size.w - hw) + (mbox.origin.x + mw) - W| ≤ 2 := by
  have hW : (0 : Int) ≤ W := le_trans (by omega) hsum
  have e1 : Int.tdiv W 2 = W / 2 := tdiv_eq_ediv_of_nonneg W 2 hW (by norm_num)
  have e2 : Int.tdiv (mw + hw) 2 = (hw + mw) / 2 := by
    rw [tdiv_eq_ediv_of_nonneg (mw + hw) 2 (by omega) (by norm_num), add_comm]
  rw [hb] at hmeasH hmeasM
  have htrace : time_layer_update_proc measure tl =
      (if tl.background_color ≠ GColor.Clear then
        [GfxCall.setFillColor tl.background_color,
         GfxCall.fillRect ⟨⟨0, 0⟩, ⟨W, bh⟩⟩]
      else []) ++
      [GfxCall.setTextColor tl.text_color] ++
      [GfxCall.measureText ht tl.hour_font ⟨⟨0, 0⟩, ⟨W, bh⟩⟩ tl.overflow_mode
          GTextAlignment.Left,
       GfxCall.measureText mt tl.minute_font ⟨⟨0, 0⟩, ⟨W, bh⟩⟩ tl.overflow_mode
          GTextAlignment.Left,
       GfxCall.drawText ht tl.hour_font
          ⟨⟨0, 0⟩, ⟨Int.tdiv W 2 - Int.tdiv (mw + hw) 2 + hw, bh⟩⟩
          tl.overflow_mode GTextAlignment.Right,
       GfxCall.drawText mt tl.minute_font
          ⟨⟨Int.tdiv W 2 - Int.tdiv (mw + hw) 2 + hw + 1, 0⟩, ⟨mw, bh⟩⟩
          tl.overflow_mode GTextAlignment.Left] := by
    simp [time_layer_update_proc, hht, hmt, hmeasH, hmeasM, hb]
  refine ⟨⟨⟨0, 0⟩, ⟨Int.tdiv W 2 - Int.tdiv (mw + hw) 2 + hw, bh⟩⟩,
          ⟨⟨Int.tdiv W 2 - Int.tdiv (mw + hw) 2 + hw + 1, 0⟩, ⟨mw, bh⟩⟩,
          ?_, ?_, ?_, ?_, ?_, ?_, ?_⟩
  · rw [htrace]
    exact List.mem_append_right _ (by simp)
  · rw [htrace]
    exact List.mem_append_right _ (by simp)
  · dsimp only
    rw [e1, e2]
  · rfl
  · rfl
  · rfl
  · dsimp only
    rw [e1, e2, abs_le]
    constructor <;> omega

/-- Witness for claim C1, scenario S1: `hw = 30`, `mw = 48`, `W = 144`;
the hour box gets width `144/2 − 78/2 + 30 = 63`, the minute box starts
at 64 with width 48, and the combined run is centred to within a pixel. -/
theorem centring_law_witness :
    ∃ hbox mbox : GRect,
      GfxCall.drawText ['9'] (GFont.custom 2) hbox
          GTextOverflowMode.WordWrap GTextAlignment.Right ∈
        time_layer_update_proc s1_measure s1_layer ∧
      GfxCall.drawText [':', '4', '5'] (GFont.custom 3) mbox
          GTextOverflowMode.WordWrap GTextAlignment.Left ∈
        time_layer_update_proc s1_measure s1_layer ∧
      hbox.size.w = 144 / 2 - (30 + 48) / 2 + 30 ∧
      mbox.origin.x = hbox.size.w + 1 ∧
      mbox.size.w = 48 ∧
      hbox.origin.x = 0 ∧
      |(hbox.origin.x + hbox.size.w - 30) + (mbox.origin.x + 48) - 144| ≤ 2 :=
  centring_law s1_measure s1_layer ['9'] [':', '4', '5'] 144 128 30 50 48 50
    rfl rfl rfl (by decide) (by decide) (by decide) (by decide) (by decide)

/-- Claim C2, counterexample: with measured widths `hw = 0`, `mw = 146`
on a 144-wide bounds (`hw + mw > bounds.width`), the hour rectangle
handed to the text drawer has width `144/2 − 146/2 + 0 = −1`: the draw
hook does not clamp to `[0, bounds.width]`. -/
theorem overflow_clamping_cex :
    GfxCall.drawText ['9'] (GFont.custom 2)
        ⟨⟨0, 0⟩, ⟨-1, 128⟩⟩ GTextOverflowMode.WordWrap GTextAlignment.Right ∈
      time_layer_update_proc cex_measure s1_layer ∧
    (0 + 146 : Int) > 144 ∧
    ¬ (0 : Int) ≤ -1 := by
  decide

/-- Claim C2, amended: when the measured widths exceed the bounds width
the draw hook applies no clamping at all — the hour rectangle's width is
still exactly `W/2 − (hw+mw)/2 + hw`, which may be negative. -/
theorem overflow_no_clamping (measure : GMeasure) (tl : TimeLayer)
    (ht mt : List Char) (W bh hw hh mw mh : Int)
    (hht : tl.hour_text = some ht) (hmt : tl.minute_text = some mt)
    (hb : tl.layer.bounds = ⟨⟨0, 0⟩, ⟨W, bh⟩⟩)
    (hmeasH : measure ht tl.hour_font tl.layer.bounds tl.overflow_mode
      GTextAlignment.Left tl.layout_cache = ⟨hw, hh⟩)
    (hmeasM : measure mt tl.minute_font tl.layer.bounds tl.overflow_mode
      GTextAlignment.Left tl.layout_cache = ⟨mw, mh⟩)
    (hw0 : 0 ≤ hw) (mw0 : 0 ≤ mw) (hW : 0 ≤ W) (hover : W < hw + mw) :
    GfxCall.drawText ht tl.hour_font
        ⟨⟨0, 0⟩, ⟨W / 2 - (hw + mw) / 2 + hw, bh⟩⟩
        tl.overflow_mode GTextAlignment.Right ∈
      time_layer_update_proc measure tl := by
  have e1 : Int.tdiv W 2 = W / 2 := tdiv_eq_ediv_of_nonneg W 2 hW (by norm_num)
  have e2 : Int.tdiv (mw + hw) 2 = (hw + mw) / 2 := by
    rw [tdiv_eq_ediv_of_nonneg (mw + hw) 2 (by omega) (by norm_num), add_comm]
  rw [hb] at hmeasH hmeasM
  simp only [time_layer_update_proc, hht, hmt, hmeasH, hmeasM, hb, e1, e2]
  exact List.mem_append_right _ (by simp)

/-- Witness for the amended claim C2 at `hw = 0`, `mw = 146`, `W = 144`:
the unclamped hour box width is `−1`. -/
theorem overflow_no_clamping_witness :
    GfxCall.drawText ['9'] (GFont.custom 2)
        ⟨⟨0, 0⟩, ⟨144 / 2 - (0 + 146) / 2 + 0, 128⟩⟩
        GTextOverflowMode.WordWrap GTextAlignment.Right ∈
      time_layer_update_proc cex_measure s1_layer :=
  overflow_no_clamping cex_measure s1_layer ['9'] [':', '4', '5'] 144 128 0 50
    146 50 rfl rfl rfl (by decide) (by decide) (by decide) (by decide)
    (by decide) (by decide)

/-- `%a` always renders exactly three characters. -/
theorem wday_abbrev_length (w : Nat) : (wday_abbrev w).length = 3 := by
  unfold wday_abbrev
  rcases Nat.lt_or_ge w 7 with h | h
  · interval_cases w <;> rfl
  · rw [List.getD_eq_default _ _ (by simpa using h)]
    rfl

/-- `%b` always renders exactly three characters. -/
theorem mon_abbrev_length (m : Nat) : (mon_abbrev m).length = 3 := by
  unfold mon_abbrev
  rcases Nat.lt_or_ge m 12 with h | h
  · interval_cases m <;> rfl
  · rw [List.getD_eq_default _ _ (by simpa using h)]
    rfl

/-- The expansion of the date pattern `"%a, %b %d"` is always eleven
characters. -/
theorem format_expand_datePat_length (t : PblTm) :
    (format_expand datePat t).length = 11 := by
  simp [datePat, format_expand, format_spec, wday_abbrev_length,
    mon_abbrev_length, two_digits]

/-- A format whose expansion is exactly one byte short of the buffer
fills the buffer: the expansion, then the terminator. -/
theorem string_format_time_exact (buf : List Char) (pat : List Char)
    (t : PblTm) (hb : buf.length = (format_expand pat t).length + 1) :
    string_format_time buf buf.length pat t =
      format_expand pat t ++ [nullChar] := by
  simp only [string_format_time]
  have h1 : min (format_expand pat t).length (buf.length - 1) =
      (format_expand pat t).length := by omega
  have h2 : buf.drop ((format_expand pat t).length + 1) = [] := by
    rw [← hb]
    exact List.drop_length buf
  rw [h1, List.take_length, h2, List.append_nil]

/-- The date write: with the buffer at its declared size 12, the
formatted date is the eleven-character expansion plus terminator. -/
theorem date_write_eq (sb : List Char) (t : PblTm) (h : sb.length = 12) :
    string_format_time sb 12 datePat t = format_expand datePat t ++ [nullChar] := by
  have := string_format_time_exact sb datePat t
    (by rw [h, format_expand_datePat_length])
  rwa [h] at this

/-- The 24-hour write: two digits plus terminator. -/
theorem hour24_write_eq (sb : List Char) (t : PblTm) (h : sb.length = 3) :
    string_format_time sb 3 hourPat24 t = two_digits t.hour ++ [nullChar] := by
  have he : format_expand hourPat24 t = two_digits t.hour := by
    simp [hourPat24, format_expand, format_spec]
  have := string_format_time_exact sb hourPat24 t (by rw [h, he]; rfl)
  rw [h] at this
  rwa [he] at this

/-- The 12-hour write before the zero-strip: the two `%I` digits plus
terminator. -/
theorem hour12_write_eq (sb : List Char) (t : PblTm) (h : sb.length = 3) :
    string_format_time sb 3 hourPat12 t =
      two_digits (hour12 t.hour) ++ [nullChar] := by
  have he : format_expand hourPat12 t = two_digits (hour12 t.hour) := by
    simp [hourPat12, format_expand, format_spec]
  have := string_format_time_exact sb hourPat12 t (by rw [h, he]; rfl)
  rw [h] at this
  rwa [he] at this

/-- The minute write: colon, two digits, terminator. -/
theorem minute_write_eq (sb : List Char) (t : PblTm) (h : sb.length = 4) :
    string_format_time sb 4 minutePat t =
      ':' :: two_digits t.min ++ [nullChar] := by
  have he : format_expand minutePat t = ':' :: two_digits t.min := by
    simp [minutePat, format_expand, format_spec]
  have := string_format_time_exact sb minutePat t (by rw [h, he]; rfl)
  rw [h] at this
  rwa [he] at this

/-- The left shift on a three-byte buffer: each byte moves one slot
left, the last byte is unchanged. -/
theorem memmove_left1_three (a b c : Char) :
    memmove_left1 [a, b, c] = [b, c, c] := rfl

/-- Claim C3: on a bounds rectangle with origin `(10, 40)` and measured
widths `hw = 30`, `mw = 48`, the code places the minute box at
`x = hour_box.width + 1 = 64` in absolute terms — it does not add
`bounds.origin.x`, so the claimed position `10 + 63 + 1 = 74` is not
where the minute is drawn. -/
theorem minute_origin_ignores_bounds_origin :
    GfxCall.drawText [':', '4', '5'] (GFont.custom 3)
        ⟨⟨64, 40⟩, ⟨48, 128⟩⟩ GTextOverflowMode.WordWrap GTextAlignment.Left ∈
      time_layer_update_proc s1_measure c3_layer ∧
    c3_layer.layer.bounds.origin.x = 10 ∧
    (64 : Int) ≠ 10 + 63 + 1 := by
  decide

/-- Claim C4: in 12-hour mode the hour buffer produced by the tick
handler displays the value 1-12, is null-terminated, starts with a
character that is neither `'0'` nor the terminator, and holds two
characters plus terminator for 10-12 and one character plus terminator
(the second slot already null) for 1-9. -/
theorem leading_zero_suppression (u : Nat) (t : PblTm) (sb : FaceBuffers)
    (hhr : t.hour < 24) (hlen : sb.hour_text.length = 3) :
    1 ≤ hour12 t.hour ∧ hour12 t.hour ≤ 12 ∧
    ((handle_minute_tick u t false sb).buffers.hour_text).length = 3 ∧
    ((handle_minute_tick u t false sb).buffers.hour_text).getD 0 ' ' ≠ '0' ∧
    ((handle_minute_tick u t false sb).buffers.hour_text).getD 0 ' ' ≠
      nullChar ∧
    (10 ≤ hour12 t.hour →
      ((handle_minute_tick u t false sb).buffers.hour_text).getD 1 ' ' ≠
        nullChar ∧
      ((handle_minute_tick u t false sb).buffers.hour_text).getD 2 ' ' =
        nullChar) ∧
    (hour12 t.hour < 10 →
      ((handle_minute_tick u t false sb).buffers.hour_text).getD 1 ' ' =
        nullChar ∧
      ((handle_minute_tick u t false sb).buffers.hour_text).getD 2 ' ' =
        nullChar) := by
  have hfmt : (handle_minute_tick u t false sb).buffers.hour_text =
      (if (two_digits (hour12 t.hour) ++ [nullChar]).head? = some '0'
       then memmove_left1 (two_digits (hour12 t.hour) ++ [nullChar])
       else two_digits (hour12 t.hour) ++ [nullChar]) := by
    simp [handle_minute_tick, hour12_write_eq sb.hour_text t hlen]
  have hrange1 : 1 ≤ hour12 t.hour := by unfold hour12; omega
  have hrange2 : hour12 t.hour ≤ 12 := by unfold hour12; omega
  rw [hfmt]
  obtain ⟨v, hv, h1, h2⟩ : ∃ v, hour12 t.hour = v ∧ 1 ≤ v ∧ v ≤ 12 :=
    ⟨_, rfl, hrange1, hrange2⟩
  rw [hv]
  interval_cases v <;> decide

/-- Witness for claim C4 at scenario S3 (09:07, 12-hour mode): the hour
buffer becomes `"9"` in a three-byte buffer. -/
theorem leading_zero_suppression_witness :
    1 ≤ hour12 9 ∧ hour12 9 ≤ 12 ∧
    ((handle_minute_tick 15 s3_time false initial_face_buffers).buffers.hour_text).length = 3 ∧
    ((handle_minute_tick 15 s3_time false initial_face_buffers).buffers.hour_text).getD 0 ' ' ≠ '0' ∧
    ((handle_minute_tick 15 s3_time false initial_face_buffers).buffers.hour_text).getD 0 ' ' ≠
      nullChar ∧
    (10 ≤ hour12 9 →
      ((handle_minute_tick 15 s3_time false initial_face_buffers).buffers.hour_text).getD 1 ' ' ≠
        nullChar ∧
      ((handle_minute_tick 15 s3_time false initial_face_buffers).buffers.hour_text).getD 2 ' ' =
        nullChar) ∧
    (hour12 9 < 10 →
      ((handle_minute_tick 15 s3_time false initial_face_buffers).buffers.hour_text).getD 1 ' ' =
        nullChar ∧
      ((handle_minute_tick 15 s3_time false initial_face_buffers).buffers.hour_text).getD 2 ' ' =
        nullChar) :=
  leading_zero_suppression 15 s3_time initial_face_buffers (by decide)
    (by decide)

/-- Claim C9: every format write of the tick handler stays inside its
buffer (the buffer lengths 12, 3 and 4 are preserved, the `memmove`
included) and any buffer that was written ends null-terminated. -/
theorem formatter_buffer_safety (u : Nat) (t : PblTm) (is24h : Bool)
    (sb : FaceBuffers) (hd : sb.date_text.length = 12)
    (hh3 : sb.hour_text.length = 3) (hm4 : sb.minute_text.length = 4) :
    (handle_minute_tick u t is24h sb).buffers.date_text.length = 12 ∧
    (handle_minute_tick u t is24h sb).buffers.hour_text.length = 3 ∧
    (handle_minute_tick u t is24h sb).buffers.minute_text.length = 4 ∧
    (u &&& DAY_UNIT ≠ 0 →
      (handle_minute_tick u t is24h sb).buffers.date_text.getLast? =
        some nullChar) ∧
    (handle_minute_tick u t is24h sb).buffers.hour_text.getLast? =
      some nullChar ∧
    (handle_minute_tick u t is24h sb).buffers.minute_text.getLast? =
      some nullChar := by
  have hdate : (handle_minute_tick u t is24h sb).buffers.date_text =
      if (u &&& DAY_UNIT) != 0 then format_expand datePat t ++ [nullChar]
      else sb.date_text := by
    simp [handle_minute_tick, date_write_eq sb.date_text t hd]
  have hmin : (handle_minute_tick u t is24h sb).buffers.minute_text =
      ':' :: two_digits t.min ++ [nullChar] := by
    simp [handle_minute_tick, minute_write_eq sb.minute_text t hm4]
  have hhour : (handle_minute_tick u t is24h sb).buffers.hour_text =
      if is24h then two_digits t.hour ++ [nullChar]
      else if (two_digits (hour12 t.hour) ++ [nullChar]).head? = some '0'
        then memmove_left1 (two_digits (hour12 t.hour) ++ [nullChar])
        else two_digits (hour12 t.hour) ++ [nullChar] := by
    cases is24h <;>
      simp [handle_minute_tick, hour24_write_eq sb.hour_text t hh3,
        hour12_write_eq sb.hour_text t hh3]
  rw [hdate, hmin, hhour]
  refine ⟨?_, ?_, ?_, ?_, ?_, ?_⟩
  · split
    · simp [format_expand_datePat_length t]
    · exact hd
  · split
    · simp [two_digits]
    · split <;> simp [two_digits, memmove_left1_three]
  · simp [two_digits]
  · intro hday
    rw [if_pos (by simpa [bne_iff_ne] using hday)]
    exact List.getLast?_concat _
  · split
    · exact List.getLast?_concat _
    · split
      · simp only [two_digits, memmove_left1_three, List.cons_append,
          List.nil_append]
        rfl
      · exact List.getLast?_concat _
  · exact List.getLast?_concat _

/-- Witness for claim C9 at scenario S3 with the day flag set and the
initial buffer contents. -/
theorem formatter_buffer_safety_witness :
    (handle_minute_tick 15 s3_time false initial_face_buffers).buffers.date_text.length = 12 ∧
    (handle_minute_tick 15 s3_time false initial_face_buffers).buffers.hour_text.length = 3 ∧
    (handle_minute_tick 15 s3_time false initial_face_buffers).buffers.minute_text.length = 4 ∧
    (15 &&& DAY_UNIT ≠ 0 →
      (handle_minute_tick 15 s3_time false initial_face_buffers).buffers.date_text.getLast? =
        some nullChar) ∧
    (handle_minute_tick 15 s3_time false initial_face_buffers).buffers.hour_text.getLast? =
      some nullChar ∧
    (handle_minute_tick 15 s3_time false initial_face_buffers).buffers.minute_text.getLast? =
      some nullChar :=
  formatter_buffer_safety 15 s3_time false initial_face_buffers (by decide)
    (by decide) (by decide)

end Roboto
